import Mathlib

/-!
Shallow embedding of `src/lib/data_classes/Run.py` (class `Run`) from the
BarSed_Lib repository.

Modelling conventions:
* A 1-D numpy array of numbers is a `List ℚ`; a 2-D array is a `List (List ℚ)`
  (list of rows).
* A Python `datetime` value is modelled by its rational day count measured
  from `datetime(1, 1, 1)`, so `datetime(1, 1, 1) + timedelta(days = t)` is
  the rational `t`.  The construction succeeds exactly when
  `0 ≤ t < 3652059` (Python datetimes range from year 1 to year 9999) and
  raises `OverflowError` otherwise.  The sub-microsecond rounding performed
  by `timedelta` on float inputs is below the resolution of every statement
  here and is not modelled.
* Each mutating method of the Python class is embedded as a function
  `... → RunState → RunState × Option RunError` returning the state at exit
  together with the exception raised, if any.  A raised exception leaves the
  object exactly as it was at the moment of the raise, which the embeddings
  reproduce statement by statement.
* numpy assignment `M[:, j] = v` broadcasts a length-1 source across the
  destination and raises `ValueError` on any other length mismatch; this is
  captured by `bcast1` / `bcast2` below.
-/

/-- Errors.  The first five model the exceptions the code in `Run.py` can
actually raise (`TypeError`, `IndexError`, `AttributeError`, `ValueError`,
`OverflowError`).  The last three are error classes named by the design
document; `Run.py` never raises them, and they are included only so that
statements about them can be formed. -/
inductive RunError where
  | typeError (msg : String)
  | indexError
  | attributeError (attr : String)
  | valueError
  | overflowError
  | shapeMismatchError
  | preconditionError
  | emptySequenceError
deriving DecidableEq

/-- Modelled from the spec: `lib/data_classes/WaveGauge.py` is not under
`src/`.  Fields follow the spec's GaugeRecord (identifier, fixed (x, y)
location, elevation series, shared TimeAxis reference) and the attribute
accesses `Run.py` makes (`.id`, `.location[0]`, `.location[1]`, `.eta`);
the constructor argument order `WaveGauge(id, location, eta, datetime)` is
taken from the call in `Run._construct_wave_gauges`. -/
structure WaveGauge where
  id : Nat
  location : ℚ × ℚ
  eta : List ℚ
  datetime : Option (List ℚ)
deriving DecidableEq

/-- Modelled from the spec: `lib/data_classes/WaveMaker.py` is not under
`src/`.  Fields follow the spec's ActuatorRecord (elevation series,
time-varying position series, shared TimeAxis reference) and the attribute
accesses `Run.py` makes (`.eta_wm`, `.position`); the constructor argument
order `WaveMaker(eta_wm, x_wm, datetime)` is taken from the call in
`Run._construct_wave_maker`. -/
structure WaveMaker where
  eta_wm : List ℚ
  position : List ℚ
  datetime : Option (List ℚ)
deriving DecidableEq

/-- Dynamically typed Python values that can reach the `add_*` methods and
the `wave_gauges` list. -/
inductive PyVal where
  | gauge (g : WaveGauge)
  | maker (w : WaveMaker)
  | list (l : List PyVal)
  | int (n : Int)

/-- Rendering of Python `type(x)` for the values above (the quotes of
Python's `<class 'int'>` display are elided). -/
def pyTypeName : PyVal → String
  | .gauge _ => "<class WaveGauge>"
  | .maker _ => "<class WaveMaker>"
  | .list _ => "<class list>"
  | .int _ => "<class int>"

/-- Python attribute access `v.eta` (present only on `WaveGauge` objects;
`none` means `AttributeError`). -/
def PyVal.etaAttr : PyVal → Option (List ℚ)
  | .gauge g => some g.eta
  | _ => none

/-- Python attribute access `v.location` (present only on `WaveGauge`
objects; `none` means `AttributeError`). -/
def PyVal.locAttr : PyVal → Option (ℚ × ℚ)
  | .gauge g => some g.location
  | _ => none

/-- The attributes of a `Run` object: those set in `__init__` plus the ones
created later by the `construct_*` / `get_*` methods (`none` models both a
Python `None` and a not-yet-created attribute, matching how `Run.py`
consumes them). -/
structure RunState where
  id : String
  wave_file_path : String
  datetime : Option (List ℚ)
  start_date : Option Int
  num_times : Option Nat
  wave_gauges : List PyVal
  num_wave_gauges : Option Nat
  wave_maker : Option WaveMaker
  wave_gauge_wse : Option (List (List ℚ))
  wg_locations : Option (List (ℚ × ℚ))
  flume_wse : Option (List (List ℚ))
  flume_wse_locs : Option (List (List ℚ))

/-- `Run.__init__(id, wave_file_path)`. -/
def initRun (id wave_file_path : String) : RunState :=
  { id := id
    wave_file_path := wave_file_path
    datetime := none
    start_date := none
    num_times := none
    wave_gauges := []
    num_wave_gauges := none
    wave_maker := none
    wave_gauge_wse := none
    wg_locations := none
    flume_wse := none
    flume_wse_locs := none }

/-- The already-unwrapped arrays of the `.mat` container (`Run.load_wave_data`
reads the fields of the top-level `eta` struct and flattens the 1-D ones;
the claims treated here all start after that unwrapping). -/
structure MatData where
  date : List ℚ
  eta : List (List ℚ)
  x : List ℚ
  y : List ℚ
  eta_wm : List ℚ
  x_wm : List ℚ

/-- The time offset set in `Run.load_wave_data`:
`time_offset = -1.0 * (365 + 2)`. -/
def time_offset : ℚ := -1 * (365 + 2)

/-- `datetime(1, 1, 1) + timedelta(days = t)`: defined for
`0 ≤ t < 3652059` (years 1 … 9999), `OverflowError` otherwise. -/
def pyDatetimeOfDays (t : ℚ) : Option ℚ :=
  if 0 ≤ t ∧ t < 3652059 then some t else none

/-- The loop of `Run._convert_mat_time_and_store`: turn each shifted code
into a datetime, stopping at the first out-of-range element (`none` models
the `OverflowError` Python raises there, before `self.datetime` has been
assigned). -/
def buildDatetimes : List ℚ → Option (List ℚ)
  | [] => some []
  | t :: ts =>
    match pyDatetimeOfDays t with
    | none => none
    | some d =>
      match buildDatetimes ts with
      | none => none
      | some ds => some (d :: ds)

/-- `Run._convert_mat_time_and_store(time_offset, mat_time)`.  Adds the
offset, builds the datetime list element by element (a single out-of-range
element raises `OverflowError` before `self.datetime` is assigned), stores
the list, then derives `start_date = self.datetime[0].date()` (an
`IndexError` on an empty list, raised after `self.datetime` was stored) and
`num_times = len(self.datetime)`. -/
def _convert_mat_time_and_store (time_offset : ℚ) (mat_time : List ℚ)
    (s : RunState) : RunState × Option RunError :=
  let shifted := mat_time.map (fun t => t + time_offset)
  match buildDatetimes shifted with
  | none => (s, some .overflowError)
  | some dts =>
    match dts with
    | [] => ({ s with datetime := some [] }, some .indexError)
    | t :: _ =>
      ({ s with
          datetime := some dts
          start_date := some (Int.floor t)
          num_times := some dts.length }, none)

/-- `Run._construct_wave_maker(eta_wm, x_wm)`. -/
def _construct_wave_maker (eta_wm x_wm : List ℚ) (s : RunState) : RunState :=
  { s with wave_maker := some ⟨eta_wm, x_wm, s.datetime⟩ }

/-- `Run.add_wave_gauge(wave_gauge)`: a `list` argument is concatenated
without inspecting its elements, a `WaveGauge` is appended, anything else
raises `TypeError`; on success `num_wave_gauges` is recomputed as the new
list length (the `print` side effect is not modelled). -/
def add_wave_gauge (s : RunState) (v : PyVal) : RunState × Option RunError :=
  match v with
  | .list l =>
    let gs := s.wave_gauges ++ l
    ({ s with wave_gauges := gs, num_wave_gauges := some gs.length }, none)
  | .gauge g =>
    let gs := s.wave_gauges ++ [PyVal.gauge g]
    ({ s with wave_gauges := gs, num_wave_gauges := some gs.length }, none)
  | _ =>
    (s, some (.typeError ("The type must be a list or a WaveGauge object\n"
        ++ "Input type is: " ++ pyTypeName v)))

/-- `Run.add_wave_maker(wave_maker)`. -/
def add_wave_maker (s : RunState) (v : PyVal) : RunState × Option RunError :=
  match v with
  | .maker w => ({ s with wave_maker := some w }, none)
  | _ =>
    (s, some (.typeError ("Type must be WaveMaker."
        ++ " Input type is " ++ pyTypeName v)))

/-- The loop of `Run._construct_wave_gauges`: for each pair produced by
`zip(x_loc, y_loc)` (index `id`), build `WaveGauge(id + 1, location,
eta[id], datetime)`; `eta[id]` is row `id` of the 2-D array `eta` and
raises `IndexError` when out of range. -/
def mkGaugesGo (eta : List (List ℚ)) (dt : Option (List ℚ)) :
    Nat → List (ℚ × ℚ) → Except RunError (List WaveGauge)
  | _, [] => .ok []
  | i, p :: ps =>
    match eta.get? i with
    | none => .error .indexError
    | some row =>
      match mkGaugesGo eta dt (i + 1) ps with
      | .error e => .error e
      | .ok rest => .ok (⟨i + 1, p, row, dt⟩ :: rest)

/-- `Run._construct_wave_gauges(x_loc, y_loc, eta)`: build the gauge list
from `zip(x_loc, y_loc)` (truncating to the shorter array), then hand it to
`add_wave_gauge`. -/
def _construct_wave_gauges (x_loc y_loc : List ℚ) (eta : List (List ℚ))
    (s : RunState) : RunState × Option RunError :=
  match mkGaugesGo eta s.datetime 0 (x_loc.zip y_loc) with
  | .error e => (s, some e)
  | .ok gs => add_wave_gauge s (.list (gs.map PyVal.gauge))

/-- `Run.load_wave_data()` after the `scipy.io.loadmat` unwrapping: convert
the time codes, build the wave maker, build the wave gauges.  No shape
check of any kind is performed between the unpacking and the construction
steps. -/
def load_wave_data (mat : MatData) (s : RunState) : RunState × Option RunError :=
  let r1 := _convert_mat_time_and_store time_offset mat.date s
  match r1.2 with
  | some e => (r1.1, some e)
  | none =>
    let s2 := _construct_wave_maker mat.eta_wm mat.x_wm r1.1
    _construct_wave_gauges mat.x mat.y mat.eta s2

/-- numpy broadcast of a 1-D source onto a length-`n` destination slice:
exact length match, or a single element stretched to length `n`; `none`
models the `ValueError` numpy raises otherwise. -/
def bcast1 (v : List ℚ) (n : Nat) : Option (List ℚ) :=
  if v.length = n then some v
  else
    match v with
    | [a] => some (List.replicate n a)
    | _ => none

/-- Row-wise broadcast of every row of a 2-D source to length `G`. -/
def bcastRows (G : Nat) : List (List ℚ) → Option (List (List ℚ))
  | [] => some []
  | r :: rs =>
    match bcast1 r G, bcastRows G rs with
    | some r2, some rs2 => some (r2 :: rs2)
    | _, _ => none

/-- numpy broadcast of a 2-D source onto a `T × G` destination slice. -/
def bcast2 (M : List (List ℚ)) (T G : Nat) : Option (List (List ℚ)) :=
  let rows : Option (List (List ℚ)) :=
    if M.length = T then some M
    else
      match M with
      | [r] => some (List.replicate T r)
      | _ => none
  match rows with
  | none => none
  | some rs => bcastRows G rs

/-- numpy column assignment `M[:, j] = v` (after `v` has been broadcast to
the row count of `M`): row `t` becomes `M[t]` with entry `j` replaced by
`v[t]`. -/
def setColQ : List (List ℚ) → Nat → List ℚ → List (List ℚ)
  | [], _, _ => []
  | _ :: _, _, [] => []
  | r :: rs, j, a :: as => r.set j a :: setColQ rs j as

/-- `T × G` numpy zeros matrix. -/
def zerosMat (T G : Nat) : List (List ℚ) :=
  List.replicate T (List.replicate G 0)

/-- The loop of `Run.construct_wave_gauge_wse`:
`surface_elevations[:, i] = wave_gauge.eta` for each stored value.  The
right-hand side attribute is read first (`AttributeError` on a non-gauge
element), then the column index is checked (`IndexError` when the loop has
more elements than `num_wave_gauges` columns), then the value is broadcast
(`ValueError` on a length mismatch with `num_times`). -/
def cwgLoop (T G : Nat) : Nat → List PyVal → List (List ℚ) →
    Except RunError (List (List ℚ))
  | _, [], M => .ok M
  | i, g :: gs, M =>
    match g.etaAttr with
    | none => .error (.attributeError "eta")
    | some e =>
      if i < G then
        match bcast1 e T with
        | none => .error .valueError
        | some v => cwgLoop T G (i + 1) gs (setColQ M i v)
      else .error .indexError

/-- `Run.construct_wave_gauge_wse()`: allocate
`np.zeros((num_times, num_wave_gauges))` (`TypeError` when either count is
still `None`), fill column `i` with gauge `i`'s elevation, store the result
in `wave_gauge_wse`. -/
def construct_wave_gauge_wse (s : RunState) : RunState × Option RunError :=
  match s.num_times, s.num_wave_gauges with
  | some T, some G =>
    match cwgLoop T G 0 s.wave_gauges (zerosMat T G) with
    | .error e => (s, some e)
    | .ok M => ({ s with wave_gauge_wse := some M }, none)
  | _, _ => (s, some (.typeError "np.zeros dimensions must be integers"))

/-- The loop of `Run.get_wave_gauge_locations`: row `i` of the `G × 2`
location array gets `wave_gauge.location[0]` and `wave_gauge.location[1]`. -/
def gwlLoop (G : Nat) : Nat → List PyVal → List (ℚ × ℚ) →
    Except RunError (List (ℚ × ℚ))
  | _, [], L => .ok L
  | i, g :: gs, L =>
    match g.locAttr with
    | none => .error (.attributeError "location")
    | some p =>
      if i < G then gwlLoop G (i + 1) gs (L.set i p)
      else .error .indexError

/-- `Run.get_wave_gauge_locations()`: allocate `np.zeros((num_wave_gauges,
2))`, write each gauge's (x, y) into its row, store the result as the
two-column `wg_locations` table (modelled as a list of (x_loc, y_loc)
pairs). -/
def get_wave_gauge_locations (s : RunState) : RunState × Option RunError :=
  match s.num_wave_gauges with
  | some G =>
    match gwlLoop G 0 s.wave_gauges (List.replicate G (0, 0)) with
    | .error e => (s, some e)
    | .ok L => ({ s with wg_locations := some L }, none)
  | none => (s, some (.typeError "np.zeros dimensions must be integers"))

/-- `Run.construct_flume_wse()`, statement by statement:
allocate the two `num_times × (num_wave_gauges + 1)` arrays (`TypeError`
when a count is still `None`); `x_location[:, 0] = wave_maker.position`
(`AttributeError` when `wave_maker` is `None`); `x_location[:, 1:] =
wg_locations["x_loc"]` (`AttributeError` when the table was never built,
the length-`G` column broadcast across all rows otherwise);
`water_surface_elevation[:, 0] = wave_maker.eta_wm`;
`water_surface_elevation[:, 1:] = wave_gauge_wse` (`AttributeError` when
that matrix was never built); store both results. -/
def construct_flume_wse (s : RunState) : RunState × Option RunError :=
  match s.num_times, s.num_wave_gauges with
  | some T, some G =>
    match s.wave_maker with
    | none => (s, some (.attributeError "position"))
    | some wm =>
      match bcast1 wm.position T with
      | none => (s, some .valueError)
      | some pos =>
        match s.wg_locations with
        | none => (s, some (.attributeError "wg_locations"))
        | some locs =>
          match bcast1 (locs.map Prod.fst) G with
          | none => (s, some .valueError)
          | some xs =>
            match bcast1 wm.eta_wm T with
            | none => (s, some .valueError)
            | some ewm =>
              match s.wave_gauge_wse with
              | none => (s, some (.attributeError "wave_gauge_wse"))
              | some W =>
                match bcast2 W T G with
                | none => (s, some .valueError)
                | some Wb =>
                  ({ s with
                      flume_wse := some (List.zipWith (fun a r => a :: r) ewm Wb)
                      flume_wse_locs := some (pos.map (fun p => p :: xs)) }, none)
  | _, _ => (s, some (.typeError "np.zeros dimensions must be integers"))

/-- Column `j` of a row-list matrix (used only to state claims that speak
about columns of `eta`). -/
def matColumn (M : List (List ℚ)) (j : Nat) : List ℚ :=
  M.filterMap (fun r => r.get? j)

/-- Entry `(t, j)` of a row-list matrix, with default 0. -/
def mEntry (M : List (List ℚ)) (t j : Nat) : ℚ :=
  (M.getD t []).getD j 0

/-- Placeholder gauge used only as a `getD` default in statements. -/
def dummyGauge : WaveGauge := ⟨0, (0, 0), [], none⟩

/-! ### List helper lemmas -/

theorem list_getD_oob {α : Type} (d : α) :
    ∀ (l : List α) (n : Nat), l.length ≤ n → l.getD n d = d := by
  intro l
  induction l with
  | nil => intro n _; cases n <;> rfl
  | cons a as ih =>
    intro n hn
    cases n with
    | zero => simp at hn
    | succ m => simpa using ih m (by simpa using hn)

theorem list_getD_set {α : Type} (d : α) :
    ∀ (l : List α) (i j : Nat) (a : α),
      (l.set i a).getD j d = if i = j ∧ j < l.length then a else l.getD j d := by
  intro l
  induction l with
  | nil => intro i j a; simp [List.set]
  | cons x xs ih =>
    intro i j a
    cases i with
    | zero =>
      cases j with
      | zero => simp
      | succ m => simp
    | succ k =>
      cases j with
      | zero => simp
      | succ m =>
        simp only [List.set, List.getD_cons_succ, List.length_cons]
        rw [ih k m a]
        split_ifs <;> first | rfl | omega

theorem list_get?_eq_some_getD {α : Type} (d : α) :
    ∀ (l : List α) (n : Nat), n < l.length → l.get? n = some (l.getD n d) := by
  intro l
  induction l with
  | nil => intro n hn; simp at hn
  | cons a as ih =>
    intro n hn
    cases n with
    | zero => simp
    | succ m => simpa using ih m (by simpa using hn)

theorem list_getD_replicate {α : Type} (d a : α) :
    ∀ (n i : Nat), (List.replicate n a).getD i d = if i < n then a else d := by
  intro n
  induction n with
  | zero => intro i; simp [List.replicate]
  | succ m ih =>
    intro i
    cases i with
    | zero => simp [List.replicate]
    | succ k =>
      simp only [List.replicate, List.getD_cons_succ, ih k]
      split_ifs <;> first | rfl | omega

theorem getD_map_fst :
    ∀ (L : List (ℚ × ℚ)) (i : Nat), (L.map Prod.fst).getD i 0 = (L.getD i (0, 0)).1 := by
  intro L
  induction L with
  | nil => intro i; simp
  | cons p ps ih =>
    intro i
    cases i with
    | zero => simp
    | succ k => simpa using ih k

theorem getD_map_cons (xs : List ℚ) :
    ∀ (l : List ℚ) (t : Nat), t < l.length →
      (l.map (fun p => p :: xs)).getD t [] = l.getD t 0 :: xs := by
  intro l
  induction l with
  | nil => intro t ht; simp at ht
  | cons a as ih =>
    intro t ht
    cases t with
    | zero => simp
    | succ k => simpa using ih k (by simpa using ht)

theorem getD_zipWith_cons :
    ∀ (l1 : List ℚ) (l2 : List (List ℚ)) (t : Nat), t < l1.length → t < l2.length →
      (List.zipWith (fun a r => a :: r) l1 l2).getD t [] = l1.getD t 0 :: l2.getD t [] := by
  intro l1
  induction l1 with
  | nil => intro l2 t ht _; simp at ht
  | cons a as ih =>
    intro l2 t ht1 ht2
    cases l2 with
    | nil => simp at ht2
    | cons r rs =>
      cases t with
      | zero => simp
      | succ k => simpa using ih rs k (by simpa using ht1) (by simpa using ht2)

theorem bcast1_exact (v : List ℚ) (n : Nat) (h : v.length = n) : bcast1 v n = some v := by
  simp [bcast1, h]

theorem bcastRows_exact (G : Nat) :
    ∀ (rs : List (List ℚ)), (∀ r ∈ rs, r.length = G) → bcastRows G rs = some rs := by
  intro rs
  induction rs with
  | nil => intro _; rfl
  | cons r rest ih =>
    intro h
    simp only [bcastRows, bcast1_exact r G (h r (by simp)),
      ih (fun q hq => h q (by simp [hq]))]

theorem bcast2_exact (M : List (List ℚ)) (T G : Nat) (hT : M.length = T)
    (h : ∀ r ∈ M, r.length = G) : bcast2 M T G = some M := by
  simp only [bcast2, hT, if_pos rfl]
  exact bcastRows_exact G M h

theorem rows_len_of_getD (G : Nat) :
    ∀ (N : List (List ℚ)), (∀ t, t < N.length → (N.getD t []).length = G) →
      ∀ r ∈ N, r.length = G := by
  intro N
  induction N with
  | nil => intro _ r hr; simp at hr
  | cons a as ih =>
    intro h r hr
    rcases List.mem_cons.mp hr with rfl | hr2
    · simpa using h 0 (by simp)
    · exact ih (fun t ht => by simpa using h (t + 1) (by simpa using ht)) r hr2

theorem buildDatetimes_ok :
    ∀ (l : List ℚ), (∀ v ∈ l, 0 ≤ v ∧ v < 3652059) → buildDatetimes l = some l := by
  intro l
  induction l with
  | nil => intro _; rfl
  | cons t ts ih =>
    intro h
    have ht := h t (by simp)
    simp only [buildDatetimes, pyDatetimeOfDays, if_pos ht,
      ih (fun v hv => h v (by simp [hv]))]

theorem setColQ_length :
    ∀ (M : List (List ℚ)) (j : Nat) (v : List ℚ), v.length = M.length →
      (setColQ M j v).length = M.length := by
  intro M
  induction M with
  | nil => intro j v _; rfl
  | cons r rs ih =>
    intro j v hv
    cases v with
    | nil => simp at hv
    | cons a as => simpa [setColQ] using ih j as (by simpa using hv)

theorem setColQ_getD :
    ∀ (M : List (List ℚ)) (v : List ℚ) (j t : Nat), v.length = M.length →
      (setColQ M j v).getD t []
        = if t < M.length then (M.getD t []).set j (v.getD t 0) else [] := by
  intro M
  induction M with
  | nil => intro v j t _; simp [setColQ]
  | cons r rs ih =>
    intro v j t hv
    cases v with
    | nil => simp at hv
    | cons a as =>
      cases t with
      | zero => simp [setColQ]
      | succ k =>
        simp only [setColQ, List.getD_cons_succ, List.length_cons]
        rw [ih as j k (by simpa using hv)]
        split_ifs <;> first | rfl | omega

/-! ### The gauge-construction loop -/

theorem mkGaugesGo_ok (eta : List (List ℚ)) (dt : Option (List ℚ)) :
    ∀ (ps : List (ℚ × ℚ)) (i : Nat), i + ps.length ≤ eta.length →
      mkGaugesGo eta dt i ps
        = .ok ((List.range ps.length).map fun j =>
            WaveGauge.mk (i + j + 1) (ps.getD j (0, 0)) (eta.getD (i + j) []) dt) := by
  intro ps
  induction ps with
  | nil => intro i _; rfl
  | cons p ps ih =>
    intro i hi
    have hilt : i < eta.length := by
      simp only [List.length_cons] at hi; omega
    have hrow := list_get?_eq_some_getD ([] : List ℚ) eta i hilt
    have hrec := ih (i + 1) (by simp only [List.length_cons] at hi; omega)
    simp only [mkGaugesGo, hrow, hrec, List.length_cons, List.range_succ_eq_map,
      List.map_cons, List.map_map]
    congr 1
    congr 1
    apply List.map_congr_left
    intro a ha
    simp only [Function.comp_apply, Nat.succ_eq_add_one, List.getD_cons_succ,
      WaveGauge.mk.injEq]
    and_intros <;>
      first
        | omega
        | rw [show i + 1 + a = i + (a + 1) by omega]
        | rfl
        | trivial

theorem mkGaugesGo_err (eta : List (List ℚ)) (dt : Option (List ℚ)) :
    ∀ (ps : List (ℚ × ℚ)) (i : Nat) (e : RunError),
      mkGaugesGo eta dt i ps = .error e → e = .indexError := by
  intro ps
  induction ps with
  | nil => intro i e h; simp [mkGaugesGo] at h
  | cons p ps ih =>
    intro i e h
    simp only [mkGaugesGo] at h
    rcases hr : eta.get? i with _ | row <;> rw [hr] at h
    · injection h with h2
      exact h2.symm
    · rcases hrec : mkGaugesGo eta dt (i + 1) ps with e2 | gs2 <;> rw [hrec] at h
      · injection h with h2
        subst h2
        exact ih (i + 1) e2 hrec
      · exact Except.noConfusion h

/-! ### The gauge-surface-matrix loop -/

theorem cwgLoop_ok (T G : Nat) :
    ∀ (gs : List WaveGauge) (i : Nat) (M : List (List ℚ)),
      (∀ g ∈ gs, g.eta.length = T) →
      M.length = T →
      (∀ t, t < T → (M.getD t []).length = G) →
      i + gs.length ≤ G →
      ∃ N, cwgLoop T G i (gs.map PyVal.gauge) M = .ok N ∧
        N.length = T ∧ (∀ t, t < T → (N.getD t []).length = G) ∧
        ∀ t j, (N.getD t []).getD j 0
          = if i ≤ j ∧ j < i + gs.length
            then (gs.getD (j - i) dummyGauge).eta.getD t 0
            else (M.getD t []).getD j 0 := by
  intro gs
  induction gs with
  | nil =>
    intro i M _ hMl hMr _
    refine ⟨M, rfl, hMl, hMr, fun t j => ?_⟩
    rw [if_neg (by simp only [List.length_nil]; omega)]
  | cons g gs ih =>
    intro i M hg hMl hMr hle
    have hgT : g.eta.length = T := hg g (by simp)
    have hiG : i < G := by simp only [List.length_cons] at hle; omega
    have hvlen : g.eta.length = M.length := by rw [hgT, hMl]
    have hM2l : (setColQ M i g.eta).length = T := by
      rw [setColQ_length M i g.eta hvlen, hMl]
    have hM2r : ∀ t, t < T → ((setColQ M i g.eta).getD t []).length = G := by
      intro t ht
      rw [setColQ_getD M g.eta i t hvlen, if_pos (by omega : t < M.length),
        List.length_set]
      exact hMr t ht
    obtain ⟨N, hrun, hNl, hNr, hNe⟩ :=
      ih (i + 1) (setColQ M i g.eta)
        (fun g2 hg2 => hg g2 (by simp [hg2]))
        hM2l hM2r (by simp only [List.length_cons] at hle; omega)
    refine ⟨N, ?_, hNl, hNr, fun t j => ?_⟩
    · rw [List.map_cons]
      simp only [cwgLoop, PyVal.etaAttr]
      rw [if_pos hiG]
      simp only [bcast1_exact g.eta T hgT]
      exact hrun
    · rw [hNe t j]
      by_cases hj1 : i + 1 ≤ j ∧ j < i + 1 + gs.length
      · rw [if_pos hj1,
          if_pos (by simp only [List.length_cons]; omega : i ≤ j ∧ j < i + (g :: gs).length)]
        rw [show j - i = (j - (i + 1)) + 1 by omega, List.getD_cons_succ]
      · by_cases hj2 : j = i
        · rw [if_neg hj1,
            if_pos (by simp only [List.length_cons]; omega : i ≤ j ∧ j < i + (g :: gs).length),
            show j - i = 0 by omega, List.getD_cons_zero]
          rcases Nat.lt_or_ge t T with htT | htT
          · rw [setColQ_getD M g.eta i t hvlen, if_pos (by omega : t < M.length),
              list_getD_set 0 (M.getD t []) i j (g.eta.getD t 0),
              if_pos ⟨hj2.symm, by rw [hMr t htT]; omega⟩]
          · rw [setColQ_getD M g.eta i t hvlen, if_neg (by omega : ¬ t < M.length),
              list_getD_oob 0 ([] : List ℚ) j (by simp),
              list_getD_oob 0 g.eta t (by omega)]
        · rw [if_neg hj1,
            if_neg (by simp only [List.length_cons]; omega :
              ¬ (i ≤ j ∧ j < i + (g :: gs).length))]
          rcases Nat.lt_or_ge t T with htT | htT
          · rw [setColQ_getD M g.eta i t hvlen, if_pos (by omega : t < M.length),
              list_getD_set 0 (M.getD t []) i j (g.eta.getD t 0),
              if_neg (by tauto)]
          · rw [setColQ_getD M g.eta i t hvlen, if_neg (by omega : ¬ t < M.length),
              list_getD_oob ([] : List ℚ) M t (by omega)]

/-! ### The gauge-location loop -/

theorem gwlLoop_ok (G : Nat) :
    ∀ (gs : List WaveGauge) (i : Nat) (L : List (ℚ × ℚ)),
      L.length = G → i + gs.length ≤ G →
      ∃ L2, gwlLoop G i (gs.map PyVal.gauge) L = .ok L2 ∧ L2.length = G ∧
        ∀ j, L2.getD j (0, 0)
          = if i ≤ j ∧ j < i + gs.length
            then (gs.getD (j - i) dummyGauge).location
            else L.getD j (0, 0) := by
  intro gs
  induction gs with
  | nil =>
    intro i L hL _
    refine ⟨L, rfl, hL, fun j => ?_⟩
    rw [if_neg (by simp only [List.length_nil]; omega)]
  | cons g gs ih =>
    intro i L hL hle
    have hiG : i < G := by simp only [List.length_cons] at hle; omega
    obtain ⟨L2, hrun, hL2, hent⟩ :=
      ih (i + 1) (L.set i g.location)
        (by rw [List.length_set]; exact hL)
        (by simp only [List.length_cons] at hle; omega)
    refine ⟨L2, ?_, hL2, fun j => ?_⟩
    · rw [List.map_cons]
      simp only [gwlLoop, PyVal.locAttr]
      rw [if_pos hiG]
      exact hrun
    · rw [hent j]
      by_cases hj1 : i + 1 ≤ j ∧ j < i + 1 + gs.length
      · rw [if_pos hj1,
          if_pos (by simp only [List.length_cons]; omega : i ≤ j ∧ j < i + (g :: gs).length),
          show j - i = (j - (i + 1)) + 1 by omega, List.getD_cons_succ]
      · by_cases hj2 : j = i
        · rw [if_neg hj1,
            if_pos (by simp only [List.length_cons]; omega : i ≤ j ∧ j < i + (g :: gs).length),
            show j - i = 0 by omega, List.getD_cons_zero,
            list_getD_set (0, 0) L i j g.location,
            if_pos ⟨hj2.symm, by omega⟩]
        · rw [if_neg hj1,
            if_neg (by simp only [List.length_cons]; omega :
              ¬ (i ≤ j ∧ j < i + (g :: gs).length)),
            list_getD_set (0, 0) L i j g.location,
            if_neg (by tauto)]

/-! ### Error classification lemmas -/

theorem convert_err_not_shape (off : ℚ) (ts : List ℚ) (s : RunState) :
    (_convert_mat_time_and_store off ts s).2 ≠ some RunError.shapeMismatchError := by
  simp only [_convert_mat_time_and_store]
  rcases hb : buildDatetimes (ts.map (fun t => t + off)) with _ | dts
  · simp
  · cases dts <;> simp

theorem construct_gauges_err_not_shape (x y : List ℚ) (eta : List (List ℚ))
    (s : RunState) :
    (_construct_wave_gauges x y eta s).2 ≠ some RunError.shapeMismatchError := by
  simp only [_construct_wave_gauges]
  rcases hm : mkGaugesGo eta s.datetime 0 (x.zip y) with e | gs
  · have := mkGaugesGo_err eta s.datetime (x.zip y) 0 e hm
    subst this
    simp
  · simp [add_wave_gauge]

/-! ### Claim C2 -/

/-- C2 counterexample: the claim quantifies over every non-empty numeric
array, but for the single-element array `[0]` the shifted value
`0 + time_offset = -367` is below `datetime.min`, so the conversion raises
`OverflowError` and stores no timestamp at all, instead of yielding the
one timestamp `epoch + (0 + offset) days` the claim asserts. -/
theorem convert_mat_time_overflow_cex :
    (_convert_mat_time_and_store time_offset [0] (initRun "RUN001" "p")).2
      = some RunError.overflowError ∧
    (_convert_mat_time_and_store time_offset [0] (initRun "RUN001" "p")).1.datetime
      = none := by
  constructor <;>
    norm_num [_convert_mat_time_and_store, buildDatetimes, pyDatetimeOfDays,
      time_offset, initRun]

/-- C2 (amended): for every non-empty array of time codes all of whose
values land inside Python's representable datetime range after the fixed
offset `-(365 + 2)` is added, the conversion succeeds and produces the
same-length, same-order sequence whose element for input `v` is the epoch
`datetime(1, 1, 1)` plus `v + time_offset` days. -/
theorem convert_mat_time_spec (mat_time : List ℚ) (s : RunState)
    (hne : mat_time ≠ [])
    (hrange : ∀ v ∈ mat_time, 0 ≤ v + time_offset ∧ v + time_offset < 3652059) :
    (_convert_mat_time_and_store time_offset mat_time s).2 = none ∧
    (_convert_mat_time_and_store time_offset mat_time s).1.datetime
      = some (mat_time.map (fun v => v + time_offset)) ∧
    (_convert_mat_time_and_store time_offset mat_time s).1.num_times
      = some mat_time.length := by
  have hb : buildDatetimes (mat_time.map (fun t => t + time_offset))
      = some (mat_time.map (fun t => t + time_offset)) := by
    apply buildDatetimes_ok
    intro v hv
    rw [List.mem_map] at hv
    obtain ⟨w, hw, rfl⟩ := hv
    exact hrange w hw
  cases mat_time with
  | nil => exact absurd rfl hne
  | cons t ts =>
    simp only [List.map_cons] at hb
    simp only [_convert_mat_time_and_store, List.map_cons, hb]
    simp [List.length_map]

/-- Witness for C2 at the single MATLAB date code 738000. -/
theorem convert_mat_time_spec_witness :
    (_convert_mat_time_and_store time_offset [738000] (initRun "RUN001" "p")).2 = none ∧
    (_convert_mat_time_and_store time_offset [738000] (initRun "RUN001" "p")).1.datetime
      = some (([738000] : List ℚ).map (fun v => v + time_offset)) ∧
    (_convert_mat_time_and_store time_offset [738000] (initRun "RUN001" "p")).1.num_times
      = some ([738000] : List ℚ).length :=
  convert_mat_time_spec [738000] (initRun "RUN001" "p") (by simp)
    (by
      intro v hv
      simp only [List.mem_singleton] at hv
      subst hv
      norm_num [time_offset])

/-! ### Claim C3 -/

/-- C3 counterexample: on an empty time-code array the conversion raises
`IndexError` (Python `list index out of range` at `self.datetime[0]`), not
the `EmptySequenceError` the claim asserts. -/
theorem convert_empty_not_emptySequence_cex :
    (_convert_mat_time_and_store time_offset [] (initRun "RUN001" "p")).2
      = some RunError.indexError ∧
    some RunError.indexError ≠ some RunError.emptySequenceError := by
  exact ⟨rfl, by simp⟩

/-- C3 (amended): an empty time-code array makes the conversion store the
empty datetime list and then fail at the start-date derivation
`self.datetime[0].date()` with an `IndexError` — not with an
`EmptySequenceError`, and not silently. -/
theorem convert_empty_index_error (off : ℚ) (s : RunState) :
    _convert_mat_time_and_store off [] s
      = ({ s with datetime := some [] }, some RunError.indexError) := rfl

/-! ### Claim C4 -/

/-- Container with a well-formed 1×3 `eta` whose second axis (3) does not
match `len(x) = 1`: nonconforming in the sense of C4. -/
def C4mat : MatData := ⟨[400], [[5, 6, 7]], [1], [2], [8], [9]⟩

/-- C4 counterexample: loading the nonconforming container `C4mat`
(second axis of `eta` is 3 ≠ `len(x)` = 1) raises nothing at all and
populates the Run fields, instead of failing with a ShapeMismatch error
before any field is populated. -/
theorem load_no_shape_validation_cex :
    C4mat.eta.length = C4mat.date.length ∧
    (C4mat.eta.getD 0 []).length ≠ C4mat.x.length ∧
    (load_wave_data C4mat (initRun "RUN001" "p")).2 = none ∧
    (load_wave_data C4mat (initRun "RUN001" "p")).1.num_wave_gauges = some 1 ∧
    (load_wave_data C4mat (initRun "RUN001" "p")).1.datetime = some [33] := by
  refine ⟨rfl, by simp [C4mat], ?_, ?_, ?_⟩ <;>
    norm_num [load_wave_data, _convert_mat_time_and_store, buildDatetimes,
      pyDatetimeOfDays, _construct_wave_maker, _construct_wave_gauges,
      mkGaugesGo, add_wave_gauge, time_offset, C4mat, initRun]

/-- C4 (amended): `load_wave_data` performs no shape validation at all — no
execution can raise a ShapeMismatch error; a container with nonconforming
`eta` loads silently whenever row indexing succeeds (it can only fail with
`OverflowError`, `IndexError` — from time conversion or row indexing —
never with a ShapeMismatch). -/
theorem load_never_shape_mismatch (mat : MatData) (s : RunState) :
    (load_wave_data mat s).2 ≠ some RunError.shapeMismatchError := by
  simp only [load_wave_data]
  rcases hc : (_convert_mat_time_and_store time_offset mat.date s).2 with _ | e
  · exact construct_gauges_err_not_shape mat.x mat.y mat.eta _
  · have hne := convert_err_not_shape time_offset mat.date s
    rw [hc] at hne
    exact hne

/-! ### Claim C6 -/

/-- C6 (confirmed): `add_wave_maker` with any non-WaveMaker argument raises
`TypeError` whose message names the received type, and leaves the whole
state — in particular the previously stored `wave_maker` — unchanged. -/
theorem add_wave_maker_type_error (s : RunState) (v : PyVal)
    (h : ∀ w, v ≠ PyVal.maker w) :
    add_wave_maker s v
      = (s, some (.typeError ("Type must be WaveMaker."
          ++ " Input type is " ++ pyTypeName v))) ∧
    (add_wave_maker s v).1.wave_maker = s.wave_maker := by
  cases v with
  | maker w => exact absurd rfl (h w)
  | gauge g => exact ⟨rfl, rfl⟩
  | list l => exact ⟨rfl, rfl⟩
  | int n => exact ⟨rfl, rfl⟩

/-- Witness for C6 at the integer argument 7. -/
theorem add_wave_maker_type_error_witness :
    add_wave_maker (initRun "RUN001" "p") (PyVal.int 7)
      = (initRun "RUN001" "p", some (.typeError ("Type must be WaveMaker."
          ++ " Input type is " ++ pyTypeName (PyVal.int 7)))) ∧
    (add_wave_maker (initRun "RUN001" "p") (PyVal.int 7)).1.wave_maker
      = (initRun "RUN001" "p").wave_maker :=
  add_wave_maker_type_error (initRun "RUN001" "p") (PyVal.int 7)
    (fun w h => PyVal.noConfusion h)

/-! ### Claim C7 -/

/-- C7 counterexample: a list containing a non-GaugeRecord element (the
integer 0) is accepted by `add_wave_gauge` without any error — the list
branch never inspects element types — and it changes the gauge list and
the gauge count, contradicting the claim that such a call fails. -/
theorem add_wave_gauge_list_unchecked_cex :
    (add_wave_gauge (initRun "RUN001" "p") (PyVal.list [PyVal.int 0])).2 = none ∧
    (add_wave_gauge (initRun "RUN001" "p") (PyVal.list [PyVal.int 0])).1.wave_gauges
      = [PyVal.int 0] ∧
    (add_wave_gauge (initRun "RUN001" "p") (PyVal.list [PyVal.int 0])).1.num_wave_gauges
      = some 1 := ⟨rfl, rfl, rfl⟩

/-- C7 (amended): only an argument that is neither a `WaveGauge` nor a
`list` of any content makes `add_wave_gauge` fail, with a `TypeError`
naming the received type and the gauge list and count unchanged; a list
argument is accepted whatever its elements are. -/
theorem add_wave_gauge_type_error (s : RunState) (v : PyVal)
    (hl : ∀ l, v ≠ PyVal.list l) (hg : ∀ g, v ≠ PyVal.gauge g) :
    add_wave_gauge s v
      = (s, some (.typeError ("The type must be a list or a WaveGauge object\n"
          ++ "Input type is: " ++ pyTypeName v))) ∧
    (add_wave_gauge s v).1.wave_gauges = s.wave_gauges ∧
    (add_wave_gauge s v).1.num_wave_gauges = s.num_wave_gauges := by
  cases v with
  | list l => exact absurd rfl (hl l)
  | gauge g => exact absurd rfl (hg g)
  | maker w => exact ⟨rfl, rfl, rfl⟩
  | int n => exact ⟨rfl, rfl, rfl⟩

/-- Witness for C7 at a WaveMaker argument. -/
theorem add_wave_gauge_type_error_witness :
    add_wave_gauge (initRun "RUN001" "p") (PyVal.maker ⟨[], [], none⟩)
      = (initRun "RUN001" "p",
          some (.typeError ("The type must be a list or a WaveGauge object\n"
            ++ "Input type is: " ++ pyTypeName (PyVal.maker ⟨[], [], none⟩)))) ∧
    (add_wave_gauge (initRun "RUN001" "p") (PyVal.maker ⟨[], [], none⟩)).1.wave_gauges
      = (initRun "RUN001" "p").wave_gauges ∧
    (add_wave_gauge (initRun "RUN001" "p") (PyVal.maker ⟨[], [], none⟩)).1.num_wave_gauges
      = (initRun "RUN001" "p").num_wave_gauges :=
  add_wave_gauge_type_error (initRun "RUN001" "p") (PyVal.maker ⟨[], [], none⟩)
    (fun l h => PyVal.noConfusion h) (fun g h => PyVal.noConfusion h)

/-! ### Claim C8 -/

/-- C8 (confirmed): `add_wave_gauge` with a list of k GaugeRecords appends
them at the end in order and sets the stored count to the old list length
plus k (an increase of exactly k when the stored count was in sync); with
a single GaugeRecord it appends it and increases the count by exactly 1;
after either call the stored count equals the gauge-list length. -/
theorem add_wave_gauge_appends (s : RunState) (gs : List WaveGauge) (g : WaveGauge)
    (h : s.num_wave_gauges = some s.wave_gauges.length) :
    ((add_wave_gauge s (.list (gs.map PyVal.gauge))).2 = none ∧
      (add_wave_gauge s (.list (gs.map PyVal.gauge))).1.wave_gauges
        = s.wave_gauges ++ gs.map PyVal.gauge ∧
      (add_wave_gauge s (.list (gs.map PyVal.gauge))).1.num_wave_gauges
        = s.num_wave_gauges.map (· + gs.length) ∧
      (add_wave_gauge s (.list (gs.map PyVal.gauge))).1.num_wave_gauges
        = some (add_wave_gauge s (.list (gs.map PyVal.gauge))).1.wave_gauges.length) ∧
    ((add_wave_gauge s (.gauge g)).2 = none ∧
      (add_wave_gauge s (.gauge g)).1.wave_gauges = s.wave_gauges ++ [PyVal.gauge g] ∧
      (add_wave_gauge s (.gauge g)).1.num_wave_gauges
        = s.num_wave_gauges.map (· + 1) ∧
      (add_wave_gauge s (.gauge g)).1.num_wave_gauges
        = some (add_wave_gauge s (.gauge g)).1.wave_gauges.length) := by
  simp [add_wave_gauge, h, List.length_append, List.length_map]

/-- Witness for C8: one stored gauge, then a two-element list and a single
record. -/
theorem add_wave_gauge_appends_witness :
    (let s := { initRun "RUN001" "p" with
        wave_gauges := [PyVal.gauge ⟨1, (0, 0), [], none⟩], num_wave_gauges := some 1 }
     let gs := [(⟨2, (1, 0), [], none⟩ : WaveGauge), ⟨3, (2, 0), [], none⟩]
     let g : WaveGauge := ⟨4, (3, 0), [], none⟩
     ((add_wave_gauge s (.list (gs.map PyVal.gauge))).2 = none ∧
       (add_wave_gauge s (.list (gs.map PyVal.gauge))).1.wave_gauges
         = s.wave_gauges ++ gs.map PyVal.gauge ∧
       (add_wave_gauge s (.list (gs.map PyVal.gauge))).1.num_wave_gauges
         = s.num_wave_gauges.map (· + gs.length) ∧
       (add_wave_gauge s (.list (gs.map PyVal.gauge))).1.num_wave_gauges
         = some (add_wave_gauge s (.list (gs.map PyVal.gauge))).1.wave_gauges.length) ∧
     ((add_wave_gauge s (.gauge g)).2 = none ∧
       (add_wave_gauge s (.gauge g)).1.wave_gauges = s.wave_gauges ++ [PyVal.gauge g] ∧
       (add_wave_gauge s (.gauge g)).1.num_wave_gauges
         = s.num_wave_gauges.map (· + 1) ∧
       (add_wave_gauge s (.gauge g)).1.num_wave_gauges
         = some (add_wave_gauge s (.gauge g)).1.wave_gauges.length)) :=
  add_wave_gauge_appends _ _ _ rfl

/-! ### Claim C5 -/

/-- A Run with counts, gauges and wave maker in place but neither
`wave_gauge_wse` nor `wg_locations` built. -/
def s5cex : RunState :=
  { initRun "RUN001" "p" with
      num_times := some 1
      num_wave_gauges := some 1
      wave_gauges := [PyVal.gauge ⟨1, (2, 3), [5], some [33]⟩]
      wave_maker := some ⟨[7], [9], some [33]⟩ }

/-- C5 counterexample: on a Run whose location table was never built,
`construct_flume_wse` fails with `AttributeError` (the missing
`wg_locations` attribute), not with the PreconditionError the claim
asserts. -/
theorem flume_wse_attribute_error_cex :
    (construct_flume_wse s5cex).2 = some (RunError.attributeError "wg_locations") ∧
    RunError.attributeError "wg_locations" ≠ RunError.preconditionError := by
  refine ⟨?_, by simp⟩
  norm_num [construct_flume_wse, s5cex, initRun, bcast1]

/-- C5 (amended): whenever the gauge surface matrix or the location table
has not been built, `construct_flume_wse` does fail, but with an
`AttributeError` for the first missing attribute it touches (or a
`TypeError`/`ValueError` from the earlier statements), never with a
PreconditionError — `Run.py` has no precondition check at all. -/
theorem flume_wse_unbuilt_fails (s : RunState)
    (h : s.wave_gauge_wse = none ∨ s.wg_locations = none) :
    ∃ e, (construct_flume_wse s).2 = some e ∧ e ≠ RunError.preconditionError := by
  rcases hT : s.num_times with _ | T <;> rcases hG : s.num_wave_gauges with _ | G <;>
    simp only [construct_flume_wse, hT, hG]
  · exact ⟨_, rfl, by simp⟩
  · exact ⟨_, rfl, by simp⟩
  · exact ⟨_, rfl, by simp⟩
  rcases hwm : s.wave_maker with _ | wm <;> simp only [hwm]
  · exact ⟨_, rfl, by simp⟩
  rcases hbp : bcast1 wm.position T with _ | pos <;> simp only [hbp]
  · exact ⟨_, rfl, by simp⟩
  rcases hwg : s.wg_locations with _ | locs <;> simp only [hwg]
  · exact ⟨_, rfl, by simp⟩
  have hwse : s.wave_gauge_wse = none := by
    rcases h with h | h
    · exact h
    · rw [h] at hwg; exact Option.noConfusion hwg
  rcases hbx : bcast1 (locs.map Prod.fst) G with _ | xs <;> simp only [hbx]
  · exact ⟨_, rfl, by simp⟩
  rcases hbe : bcast1 wm.eta_wm T with _ | ewm <;> simp only [hbe]
  · exact ⟨_, rfl, by simp⟩
  rw [hwse]
  exact ⟨_, rfl, by simp⟩

/-- Witness for C5 at a freshly initialized Run. -/
theorem flume_wse_unbuilt_fails_witness :
    ∃ e, (construct_flume_wse (initRun "RUN001" "p")).2 = some e ∧
      e ≠ RunError.preconditionError :=
  flume_wse_unbuilt_fails (initRun "RUN001" "p") (Or.inl rfl)

/-! ### Claim C1 -/

/-- Conforming 2×2 container: T = len(date) = 2, G = len(x) = 2,
eta = [[10, 20], [30, 40]]. -/
def C1mat : MatData := ⟨[400, 401], [[10, 20], [30, 40]], [1, 2], [0, 0], [0, 0], [0, 0]⟩

/-- C1 counterexample: loading the conforming T×G container `C1mat`
builds gauge 0 with elevation series `eta[0] = [10, 20]` — row 0 of `eta`
— whereas column 0 of `eta` is `[10, 30]`; the claim that gauge i carries
column i of `eta` is false on the code. -/
theorem load_gauge_row_not_column_cex :
    C1mat.eta.length = C1mat.date.length ∧
    (∀ r ∈ C1mat.eta, r.length = C1mat.x.length) ∧
    (load_wave_data C1mat (initRun "RUN001" "p")).2 = none ∧
    (load_wave_data C1mat (initRun "RUN001" "p")).1.wave_gauges.get? 0
      = some (PyVal.gauge ⟨1, (1, 0), [10, 20], some [33, 34]⟩) ∧
    matColumn C1mat.eta 0 = [10, 30] ∧
    ([10, 20] : List ℚ) ≠ [10, 30] := by
  refine ⟨rfl, by simp [C1mat], ?_, ?_,
    by norm_num [matColumn, C1mat, List.filterMap_cons], by norm_num⟩ <;>
    norm_num [load_wave_data, _convert_mat_time_and_store, buildDatetimes,
      pyDatetimeOfDays, _construct_wave_maker, _construct_wave_gauges,
      mkGaugesGo, add_wave_gauge, time_offset, C1mat, initRun]

/-- C1 (amended): whenever `eta` has at least `min(len x, len y)` rows, the
i-th constructed GaugeRecord has identifier i+1, the i-th (x, y) pair as
location, the shared TimeAxis, and elevation series equal to ROW i of
`eta` (`eta[id]` in the code) — not column i. -/
theorem construct_wave_gauges_spec (x_loc y_loc : List ℚ) (eta : List (List ℚ))
    (s : RunState) (h : min x_loc.length y_loc.length ≤ eta.length) :
    (_construct_wave_gauges x_loc y_loc eta s).2 = none ∧
    (_construct_wave_gauges x_loc y_loc eta s).1.wave_gauges
      = s.wave_gauges ++ (List.range (min x_loc.length y_loc.length)).map
          (fun i => PyVal.gauge
            ⟨i + 1, (x_loc.zip y_loc).getD i (0, 0), eta.getD i [], s.datetime⟩) ∧
    (_construct_wave_gauges x_loc y_loc eta s).1.num_wave_gauges
      = some (s.wave_gauges.length + min x_loc.length y_loc.length) := by
  have hz : (x_loc.zip y_loc).length = min x_loc.length y_loc.length :=
    List.length_zip x_loc y_loc
  have hok := mkGaugesGo_ok eta s.datetime (x_loc.zip y_loc) 0
    (by rw [hz]; omega)
  refine ⟨?_, ?_, ?_⟩
  · simp only [_construct_wave_gauges, hok, add_wave_gauge]
  · simp only [_construct_wave_gauges, hok, add_wave_gauge, List.map_map]
    simp only [hz, Function.comp_def, Nat.zero_add]
  · simp only [_construct_wave_gauges, hok, add_wave_gauge]
    simp [List.length_append, List.length_map, List.length_range, hz]

/-- Witness for C1 on a 2×2 container fragment. -/
theorem construct_wave_gauges_spec_witness :
    (_construct_wave_gauges [1, 2] [4, 5] [[7, 8], [9, 10]] (initRun "RUN001" "p")).2
      = none ∧
    (_construct_wave_gauges [1, 2] [4, 5] [[7, 8], [9, 10]] (initRun "RUN001" "p")).1.wave_gauges
      = (initRun "RUN001" "p").wave_gauges
        ++ (List.range (min ([1, 2] : List ℚ).length ([4, 5] : List ℚ).length)).map
          (fun i => PyVal.gauge
            ⟨i + 1, (([1, 2] : List ℚ).zip ([4, 5] : List ℚ)).getD i (0, 0),
              ([[7, 8], [9, 10]] : List (List ℚ)).getD i [],
              (initRun "RUN001" "p").datetime⟩) ∧
    (_construct_wave_gauges [1, 2] [4, 5] [[7, 8], [9, 10]] (initRun "RUN001" "p")).1.num_wave_gauges
      = some ((initRun "RUN001" "p").wave_gauges.length
          + min ([1, 2] : List ℚ).length ([4, 5] : List ℚ).length) :=
  construct_wave_gauges_spec [1, 2] [4, 5] [[7, 8], [9, 10]] (initRun "RUN001" "p")
    (by simp)

/-! ### Claim C10 -/

/-- C10 counterexample: with `x` of length 3, `y` of length 2 (unequal) and
a one-row `eta`, gauge construction DOES fail — `eta[1]` raises
`IndexError` — contradicting the claim that construction never fails for
unequal position arrays. -/
theorem construct_wave_gauges_short_eta_cex :
    ([1, 2, 3] : List ℚ).length ≠ ([4, 5] : List ℚ).length ∧
    (_construct_wave_gauges [1, 2, 3] [4, 5] [[5]] (initRun "RUN001" "p")).2
      = some RunError.indexError := by
  refine ⟨by simp, ?_⟩
  norm_num [_construct_wave_gauges, mkGaugesGo, initRun]

/-- C10 (amended): for position arrays of unequal lengths, and provided
`eta` has at least `min(len x, len y)` rows, gauge construction does not
fail and silently creates exactly `min(len x, len y)` GaugeRecords —
`zip` truncates to the shorter array — so the stored count can differ from
the length of either position array; with fewer `eta` rows it raises
`IndexError` instead. -/
theorem construct_wave_gauges_truncates (x_loc y_loc : List ℚ) (eta : List (List ℚ))
    (s : RunState) (hne : x_loc.length ≠ y_loc.length)
    (h : min x_loc.length y_loc.length ≤ eta.length) :
    (_construct_wave_gauges x_loc y_loc eta s).2 = none ∧
    (_construct_wave_gauges x_loc y_loc eta s).1.wave_gauges.length
      = s.wave_gauges.length + min x_loc.length y_loc.length ∧
    (_construct_wave_gauges x_loc y_loc eta s).1.num_wave_gauges
      = some (s.wave_gauges.length + min x_loc.length y_loc.length) := by
  have hz : (x_loc.zip y_loc).length = min x_loc.length y_loc.length :=
    List.length_zip x_loc y_loc
  have hok := mkGaugesGo_ok eta s.datetime (x_loc.zip y_loc) 0
    (by rw [hz]; omega)
  refine ⟨?_, ?_, ?_⟩
  · simp only [_construct_wave_gauges, hok, add_wave_gauge]
  · simp only [_construct_wave_gauges, hok, add_wave_gauge]
    simp [List.length_append, List.length_map, List.length_range, hz]
  · simp only [_construct_wave_gauges, hok, add_wave_gauge]
    simp [List.length_append, List.length_map, List.length_range, hz]

/-- Witness for C10: x has 3 entries, y has 2, eta has 2 rows; exactly
min(3, 2) = 2 gauges are created without error. -/
theorem construct_wave_gauges_truncates_witness :
    (_construct_wave_gauges [1, 2, 3] [4, 5] [[7], [8]] (initRun "RUN001" "p")).2
      = none ∧
    (_construct_wave_gauges [1, 2, 3] [4, 5] [[7], [8]] (initRun "RUN001" "p")).1.wave_gauges.length
      = (initRun "RUN001" "p").wave_gauges.length
        + min ([1, 2, 3] : List ℚ).length ([4, 5] : List ℚ).length ∧
    (_construct_wave_gauges [1, 2, 3] [4, 5] [[7], [8]] (initRun "RUN001" "p")).1.num_wave_gauges
      = some ((initRun "RUN001" "p").wave_gauges.length
          + min ([1, 2, 3] : List ℚ).length ([4, 5] : List ℚ).length) :=
  construct_wave_gauges_truncates [1, 2, 3] [4, 5] [[7], [8]] (initRun "RUN001" "p")
    (by simp) (by simp)

/-! ### Claim C9 -/

/-- C9 (confirmed): starting from a consistent loaded Run, building the
gauge surface matrix, then the location table, then the flume matrices
succeeds, and the two T×(G+1) outputs have column 0 equal to the wave
maker's elevation and (time-varying) position series exactly, and column
i+1 equal to gauge i's elevation series and its fixed x-location broadcast
down all T rows. -/
theorem construct_flume_wse_columns (s : RunState) (T G : Nat)
    (gs : List WaveGauge) (wm : WaveMaker)
    (hT : s.num_times = some T) (hG : s.num_wave_gauges = some G)
    (hgs : s.wave_gauges = gs.map PyVal.gauge) (hlen : gs.length = G)
    (heta : ∀ g ∈ gs, g.eta.length = T)
    (hwm : s.wave_maker = some wm)
    (hpos : wm.position.length = T) (hewm : wm.eta_wm.length = T) :
    (construct_wave_gauge_wse s).2 = none ∧
    (get_wave_gauge_locations (construct_wave_gauge_wse s).1).2 = none ∧
    (construct_flume_wse
        (get_wave_gauge_locations (construct_wave_gauge_wse s).1).1).2 = none ∧
    ∃ F X,
      (construct_flume_wse
          (get_wave_gauge_locations (construct_wave_gauge_wse s).1).1).1.flume_wse
        = some F ∧
      (construct_flume_wse
          (get_wave_gauge_locations (construct_wave_gauge_wse s).1).1).1.flume_wse_locs
        = some X ∧
      F.length = T ∧ X.length = T ∧
      (∀ t, t < T → (F.getD t []).length = G + 1 ∧ (X.getD t []).length = G + 1) ∧
      (∀ t, t < T → mEntry F t 0 = wm.eta_wm.getD t 0 ∧
        mEntry X t 0 = wm.position.getD t 0) ∧
      (∀ t i, t < T → i < G →
        mEntry F t (i + 1) = (gs.getD i dummyGauge).eta.getD t 0 ∧
        mEntry X t (i + 1) = (gs.getD i dummyGauge).location.1) := by
  obtain ⟨N, hNrun, hNlen, hNrows, hNent⟩ :=
    cwgLoop_ok T G gs 0 (zerosMat T G) heta
      (by simp [zerosMat])
      (by
        intro t ht
        rw [zerosMat, list_getD_replicate, if_pos ht]
        simp)
      (by omega)
  obtain ⟨L2, hLrun, hLlen, hLent⟩ :=
    gwlLoop_ok G gs 0 (List.replicate G (0, 0)) (by simp) (by omega)
  have hs1run : construct_wave_gauge_wse s
      = ({ s with wave_gauge_wse := some N }, none) := by
    simp only [construct_wave_gauge_wse, hT, hG, hgs, hNrun]
  have hs2run : get_wave_gauge_locations ({ s with wave_gauge_wse := some N })
      = ({ s with wave_gauge_wse := some N, wg_locations := some L2 }, none) := by
    simp only [get_wave_gauge_locations, hG, hgs, hLrun]
  have hflume : construct_flume_wse
      ({ s with wave_gauge_wse := some N, wg_locations := some L2 })
      = Prod.mk
          { s with
              wave_gauge_wse := some N
              wg_locations := some L2
              flume_wse := some (List.zipWith (fun a r => a :: r) wm.eta_wm N)
              flume_wse_locs := some (wm.position.map (fun p => p :: (L2.map Prod.fst))) }
          none := by
    simp only [construct_flume_wse, hT, hG, hwm,
      bcast1_exact wm.position T hpos,
      bcast1_exact (L2.map Prod.fst) G (by rw [List.length_map, hLlen]),
      bcast1_exact wm.eta_wm T hewm,
      bcast2_exact N T G hNlen (rows_len_of_getD G N (fun t ht => hNrows t (by omega)))]
  refine ⟨by simp [hs1run], by simp [hs1run, hs2run],
    by simp [hs1run, hs2run, hflume], ?_⟩
  simp only [hs1run, hs2run, hflume]
  refine ⟨List.zipWith (fun a r => a :: r) wm.eta_wm N,
    wm.position.map (fun p => p :: (L2.map Prod.fst)), rfl, rfl, ?_, ?_, ?_, ?_, ?_⟩
  · rw [List.length_zipWith, hewm, hNlen]
    omega
  · rw [List.length_map, hpos]
  · intro t ht
    constructor
    · rw [getD_zipWith_cons wm.eta_wm N t (by omega) (by omega), List.length_cons,
        hNrows t ht]
    · rw [getD_map_cons (L2.map Prod.fst) wm.position t (by omega), List.length_cons,
        List.length_map, hLlen]
  · intro t ht
    constructor
    · rw [mEntry, getD_zipWith_cons wm.eta_wm N t (by omega) (by omega),
        List.getD_cons_zero]
    · rw [mEntry, getD_map_cons (L2.map Prod.fst) wm.position t (by omega),
        List.getD_cons_zero]
  · intro t i ht hi
    constructor
    · rw [mEntry, getD_zipWith_cons wm.eta_wm N t (by omega) (by omega),
        List.getD_cons_succ, hNent t i, if_pos ⟨Nat.zero_le i, by omega⟩,
        Nat.sub_zero]
    · rw [mEntry, getD_map_cons (L2.map Prod.fst) wm.position t (by omega),
        List.getD_cons_succ, getD_map_fst, hLent i,
        if_pos ⟨Nat.zero_le i, by omega⟩, Nat.sub_zero]

/-- Loaded Run with T = 1, G = 1: one gauge at (2, 3) with elevation [5],
wave maker elevation [7] and position [9]. -/
def s9wit : RunState :=
  { initRun "RUN001" "p" with
      datetime := some [33]
      start_date := some 33
      num_times := some 1
      wave_gauges := [PyVal.gauge ⟨1, (2, 3), [5], some [33]⟩]
      num_wave_gauges := some 1
      wave_maker := some ⟨[7], [9], some [33]⟩ }

/-- Witness for C9 on the 1×1 Run `s9wit`. -/
theorem construct_flume_wse_columns_witness :
    (construct_wave_gauge_wse s9wit).2 = none ∧
    (get_wave_gauge_locations (construct_wave_gauge_wse s9wit).1).2 = none ∧
    (construct_flume_wse
        (get_wave_gauge_locations (construct_wave_gauge_wse s9wit).1).1).2 = none ∧
    ∃ F X,
      (construct_flume_wse
          (get_wave_gauge_locations (construct_wave_gauge_wse s9wit).1).1).1.flume_wse
        = some F ∧
      (construct_flume_wse
          (get_wave_gauge_locations (construct_wave_gauge_wse s9wit).1).1).1.flume_wse_locs
        = some X ∧
      F.length = 1 ∧ X.length = 1 ∧
      (∀ t, t < 1 → (F.getD t []).length = 1 + 1 ∧ (X.getD t []).length = 1 + 1) ∧
      (∀ t, t < 1 →
        mEntry F t 0 = (⟨[7], [9], some [33]⟩ : WaveMaker).eta_wm.getD t 0 ∧
        mEntry X t 0 = (⟨[7], [9], some [33]⟩ : WaveMaker).position.getD t 0) ∧
      (∀ t i, t < 1 → i < 1 →
        mEntry F t (i + 1)
          = (([⟨1, (2, 3), [5], some [33]⟩] : List WaveGauge).getD i dummyGauge).eta.getD t 0 ∧
        mEntry X t (i + 1)
          = (([⟨1, (2, 3), [5], some [33]⟩] : List WaveGauge).getD i dummyGauge).location.1) :=
  construct_flume_wse_columns s9wit 1 1 [⟨1, (2, 3), [5], some [33]⟩]
    ⟨[7], [9], some [33]⟩ rfl rfl rfl rfl
    (by
      intro g hg
      simp only [List.mem_singleton] at hg
      subst hg
      rfl)
    rfl rfl rfl
